import Mathlib

/-!
Verification of the texture-layout and transfer core of `tfjs-core`
(`src/kernels/webgl/gpgpu_util.ts`), against its natural-language
specification.

Shallow embedding conventions:
* Numeric buffer entries are `Nat` holding the 32-bit value stored in the
  corresponding typed-array slot (a float32 bit pattern for float buffers,
  a byte 0..255 for `Uint8Array` buffers).  The codec only moves and copies
  entries, so no floating-point arithmetic is modelled; where the value of
  a bit pattern matters (`decodeDownloadTargetArrayBuffer` in unsigned-byte
  mode) the IEEE-754 interpretation is made explicit as a rational.
* WebGL enum constants are plain `Nat`s; constants that exist only on a
  WebGL2 context (`RED`, `R32F`, `R16F`, `HALF_FLOAT`) are `Option Nat`,
  `none` standing for the JavaScript `undefined`.
* Fallible code returns `Except JsError`; a JavaScript property access on
  `null` is a thrown `TypeError`, modelled by `JsError.typeError`.
* GPU calls are recorded as an explicit trace (`List GpuCall`); the driver
  data delivered by `gl.readPixels` is an oracle `pix : Nat → Nat` giving
  the value written into each slot of the destination buffer.
-/

/-- Environment flags read through `ENV.get` in `gpgpu_util.ts`:
`WEBGL_VERSION`, `WEBGL_RENDER_FLOAT_ENABLED`, `WEBGL_DOWNLOAD_FLOAT_ENABLED`. -/
structure Env where
  webglVersion : Nat
  renderFloatEnabled : Bool
  downloadFloatEnabled : Bool
deriving DecidableEq, Repr

/-- The WebGL enum constants read by `gpgpu_util.ts`.  `RGBA`,
`UNSIGNED_BYTE` and `FLOAT` exist on every `WebGLRenderingContext`; `RED`,
`R32F`, `R16F` and `HALF_FLOAT` are accessed through an `any` cast and are
`undefined` (`none`) on a WebGL1 context. -/
structure GLConstants where
  RGBA : Nat
  UNSIGNED_BYTE : Nat
  FLOAT : Nat
  RED : Option Nat
  R32F : Option Nat
  R16F : Option Nat
  HALF_FLOAT : Option Nat
  TEXTURE_2D : Nat
  TEXTURE_WRAP_S : Nat
  TEXTURE_WRAP_T : Nat
  TEXTURE_MIN_FILTER : Nat
  TEXTURE_MAG_FILTER : Nat
  CLAMP_TO_EDGE : Nat
  NEAREST : Nat
deriving DecidableEq, Repr

/-- The `OES_texture_half_float` extension object; `HALF_FLOAT_OES` is its
render/upload type constant. -/
structure HalfFloatExt where
  HALF_FLOAT_OES : Nat
deriving DecidableEq, Repr

/-- Errors surfaced by the embedded code.  `typeError` models the
JavaScript `TypeError` thrown by a property access on `null` (the only way
`getTextureConfig` can fail); `sizeError` models the error thrown by
`webgl_util.validateTextureSize` when texture dimensions exceed the
platform maximum; `configurationError` is the spec's `ConfigurationError`
kind, included so that statements can distinguish it from the others. -/
inductive JsError where
  | typeError
  | sizeError
  | configurationError
deriving DecidableEq, Repr

/-- The `TextureConfig` interface of `gpgpu_util.ts` (lines 35-52).  Fields
that can be left `undefined` by `getTextureConfig` (WebGL2-only constants,
and `textureTypeHalfFloat` on the legacy float-render path, which is never
assigned) are `Option Nat`. -/
structure TextureConfig where
  internalFormat : Option Nat
  textureFormat : Option Nat
  internalFormatHalfFloat : Option Nat
  downloadTextureFormat : Nat
  downloadUnpackNumChannels : Nat
  downloadTextureType : Nat
  defaultTextureType : Nat
  textureTypeUpload : Nat
  textureTypeRender : Nat
  defaultNumChannels : Nat
  textureTypeHalfFloat : Option Nat
deriving DecidableEq, Repr

/-- The module-level mutable `LOOKUP` object of `gpgpu_util.ts` (line 108),
as an association list; the most recent assignment to a key shadows
earlier ones, matching JavaScript object assignment observed through
property reads. -/
abbrev LookupMap : Type := List (Nat × String)

/-- `LOOKUP[k] = v`: JavaScript object assignment. -/
def lookupSet (m : LookupMap) (k : Nat) (v : String) : LookupMap :=
  (k, v) :: m

/-- `LOOKUP[k]`: JavaScript object read (`none` = `undefined`). -/
def lookupGet (m : LookupMap) (k : Nat) : Option String :=
  (List.find? (fun p => p.1 == k) m).map Prod.snd

/-- The `LOOKUP[...] = '...'` assignments performed by `getTextureConfig`
(lines 116-132): unconditional writes for `RGBA`, `UNSIGNED_BYTE` and
`FLOAT`, guarded writes for the WebGL2-only constants and the half-float
extension constant.  (Line 122 really maps `R32F` to the string `'RGBA'`.) -/
def lookupRecordConstants (glc : GLConstants) (ext : Option HalfFloatExt)
    (lookup : LookupMap) : LookupMap :=
  let l := lookupSet lookup glc.RGBA "RGBA"
  let l := lookupSet l glc.UNSIGNED_BYTE "UNSIGNED_BYTE"
  let l := match glc.RED with
    | some v => lookupSet l v "RED"
    | none => l
  let l := match glc.R32F with
    | some v => lookupSet l v "RGBA"
    | none => l
  let l := match glc.HALF_FLOAT with
    | some v => lookupSet l v "HALF_FLOAT"
    | none => l
  let l := lookupSet l glc.FLOAT "FLOAT"
  match ext with
  | some e => lookupSet l e.HALF_FLOAT_OES "HALF_FLOAT_OES"
  | none => l

/-- The keys the `LOOKUP` writes of `getTextureConfig` can touch. -/
def lookupWriteKeys (glc : GLConstants) (ext : Option HalfFloatExt) : List Nat :=
  [glc.RGBA, glc.UNSIGNED_BYTE] ++ glc.RED.toList ++ glc.R32F.toList ++
    glc.HALF_FLOAT.toList ++ [glc.FLOAT] ++ (ext.map HalfFloatExt.HALF_FLOAT_OES).toList

/-- The JavaScript property access `textureHalfFloatExtension.HALF_FLOAT_OES`
(lines 173 and 196): reading a property of `null` throws a `TypeError`. -/
def halfFloatOES : Option HalfFloatExt → Except JsError Nat
  | some e => Except.ok e.HALF_FLOAT_OES
  | none => Except.error JsError.typeError

/-- `getTextureConfig` (lines 110-231).  First the diagnostic `LOOKUP`
writes, then the branch on `WEBGL_VERSION === 2` choosing formats, then the
download type from `WEBGL_DOWNLOAD_FLOAT_ENABLED`, then the render type
from `WEBGL_RENDER_FLOAT_ENABLED` (falling back to the half-float
extension's constant, a throwing access when the extension is `null`).
Returns the mutated `LOOKUP` state alongside the result. -/
def getTextureConfig (env : Env) (glc : GLConstants) (ext : Option HalfFloatExt)
    (lookup : LookupMap) : LookupMap × Except JsError TextureConfig :=
  (lookupRecordConstants glc ext lookup,
    let textureTypeUpload := glc.FLOAT
    let stage1 : Except JsError
        (Option Nat × Option Nat × Option Nat × Nat × Nat × Option Nat × Nat) :=
      if env.webglVersion = 2 then
        Except.ok (glc.R32F, glc.R16F, glc.RED, 4, 1, glc.HALF_FLOAT, glc.FLOAT)
      else if !env.renderFloatEnabled then
        match halfFloatOES ext with
        | Except.error e => Except.error e
        | Except.ok hf =>
          Except.ok (some glc.RGBA, some glc.RGBA, some glc.RGBA, 4, 4, some hf, hf)
      else
        Except.ok (some glc.RGBA, some glc.RGBA, some glc.RGBA, 4, 4, none, glc.FLOAT)
    match stage1 with
    | Except.error e => Except.error e
    | Except.ok (internalFormat, internalFormatHalfFloat, textureFormat,
        downloadUnpackNumChannels, defaultNumChannels,
        textureTypeHalfFloat, defaultTextureType) =>
      let downloadTextureFormat := glc.RGBA
      let downloadTextureType :=
        if env.downloadFloatEnabled then glc.FLOAT else glc.UNSIGNED_BYTE
      match (if env.renderFloatEnabled then Except.ok glc.FLOAT else halfFloatOES ext :
          Except JsError Nat) with
      | Except.error e => Except.error e
      | Except.ok textureTypeRender =>
        Except.ok
          { internalFormat, internalFormatHalfFloat, textureFormat,
            downloadTextureFormat, downloadUnpackNumChannels, downloadTextureType,
            defaultTextureType, textureTypeUpload, textureTypeRender,
            defaultNumChannels, textureTypeHalfFloat })

/-- `true` iff the call failed with the spec's `ConfigurationError` kind. -/
def failsWithConfigurationError (r : LookupMap × Except JsError TextureConfig) : Bool :=
  match r.2 with
  | Except.error JsError.configurationError => true
  | _ => false

/-- Sample constants of a WebGL1 (legacy) context, real WebGL enum values. -/
def glWebGL1 : GLConstants :=
  { RGBA := 6408, UNSIGNED_BYTE := 5121, FLOAT := 5126,
    RED := none, R32F := none, R16F := none, HALF_FLOAT := none,
    TEXTURE_2D := 3553, TEXTURE_WRAP_S := 10242, TEXTURE_WRAP_T := 10243,
    TEXTURE_MIN_FILTER := 10241, TEXTURE_MAG_FILTER := 10240,
    CLAMP_TO_EDGE := 33071, NEAREST := 9728 }

/-- Sample constants of a WebGL2 (modern) context. -/
def glWebGL2 : GLConstants :=
  { RGBA := 6408, UNSIGNED_BYTE := 5121, FLOAT := 5126,
    RED := some 6403, R32F := some 33326, R16F := some 33325,
    HALF_FLOAT := some 5131,
    TEXTURE_2D := 3553, TEXTURE_WRAP_S := 10242, TEXTURE_WRAP_T := 10243,
    TEXTURE_MIN_FILTER := 10241, TEXTURE_MAG_FILTER := 10240,
    CLAMP_TO_EDGE := 33071, NEAREST := 9728 }

/-- A legacy environment with neither float rendering nor float download. -/
def envLegacyNoFloat : Env :=
  { webglVersion := 1, renderFloatEnabled := false, downloadFloatEnabled := false }

/-- A modern environment with full float support. -/
def envModernFloat : Env :=
  { webglVersion := 2, renderFloatEnabled := true, downloadFloatEnabled := true }

lemma lookupGet_set_ne (m : LookupMap) (k k' : Nat) (v : String) (h : k ≠ k') :
    lookupGet (lookupSet m k' v) k = lookupGet m k := by
  unfold lookupGet lookupSet
  rw [List.find?_cons_of_neg]
  simp [Ne.symm h]

lemma lookupRecord_get_ne (glc : GLConstants) (ext : Option HalfFloatExt)
    (l : LookupMap) (k : Nat) (hk : k ∉ lookupWriteKeys glc ext) :
    lookupGet (lookupRecordConstants glc ext l) k = lookupGet l k := by
  simp only [lookupWriteKeys, List.mem_append, List.mem_cons,
    List.mem_singleton, not_or] at hk
  unfold lookupRecordConstants
  rcases ext with _ | e <;>
    rcases hR : glc.RED with _ | r <;>
      rcases h32 : glc.R32F with _ | r32 <;>
        rcases hHF : glc.HALF_FLOAT with _ | hf <;>
          simp only [hR, h32, hHF, Option.toList] at hk ⊢ <;>
            simp_all [lookupGet_set_ne]

deriving instance DecidableEq for Except

/-- C4: every successfully resolved descriptor has download texture type
`FLOAT` exactly when the float-download capability is present and
`UNSIGNED_BYTE` otherwise; no other download type is ever produced. -/
theorem getTextureConfig_downloadType (env : Env) (glc : GLConstants)
    (ext : Option HalfFloatExt) (l : LookupMap) (cfg : TextureConfig)
    (h : (getTextureConfig env glc ext l).2 = Except.ok cfg) :
    cfg.downloadTextureType =
      if env.downloadFloatEnabled then glc.FLOAT else glc.UNSIGNED_BYTE := by
  by_cases hv : env.webglVersion = 2 <;>
    rcases hr : env.renderFloatEnabled with _ | _ <;>
      rcases hx : ext with _ | e <;>
        simp_all [getTextureConfig, halfFloatOES] <;>
          (subst h; rfl)

/-- A concrete descriptor: what `getTextureConfig` resolves on a modern
(WebGL2) context with full float support. -/
def cfgModernSample : TextureConfig :=
  { internalFormat := some 33326, textureFormat := some 6403,
    internalFormatHalfFloat := some 33325, downloadTextureFormat := 6408,
    downloadUnpackNumChannels := 4, downloadTextureType := 5126,
    defaultTextureType := 5126, textureTypeUpload := 5126,
    textureTypeRender := 5126, defaultNumChannels := 1,
    textureTypeHalfFloat := some 5131 }

theorem getTextureConfig_downloadType_witness :
    (getTextureConfig envModernFloat glWebGL2 none List.nil).2 =
        Except.ok cfgModernSample ∧
    cfgModernSample.downloadTextureType =
      if envModernFloat.downloadFloatEnabled then glWebGL2.FLOAT
      else glWebGL2.UNSIGNED_BYTE :=
  ⟨by decide,
   getTextureConfig_downloadType envModernFloat glWebGL2 none List.nil
     cfgModernSample (by decide)⟩

/-- C5 counterexample: on a legacy context with float rendering disabled
and no half-float extension, `getTextureConfig` does fail, but with the
`TypeError` of a property access on `null` (line 173 dereferences the
absent extension), not with the spec's `ConfigurationError` kind. -/
theorem getTextureConfig_fails_without_configurationError :
    failsWithConfigurationError
        (getTextureConfig envLegacyNoFloat glWebGL1 none List.nil) = false ∧
    (getTextureConfig envLegacyNoFloat glWebGL1 none List.nil).2 =
      Except.error JsError.typeError := by
  decide

/-- C5 (amended): the render target type is `FLOAT` when the float-render
capability is present and the half-float extension's `HALF_FLOAT_OES`
otherwise; when float rendering is unavailable and the extension is absent,
resolution fails with the `TypeError` of dereferencing the `null`
extension (not a `ConfigurationError`). -/
theorem getTextureConfig_renderType (env : Env) (glc : GLConstants)
    (ext : Option HalfFloatExt) (l : LookupMap) :
    (env.renderFloatEnabled = true → ∀ cfg : TextureConfig,
      (getTextureConfig env glc ext l).2 = Except.ok cfg →
        cfg.textureTypeRender = glc.FLOAT) ∧
    (env.renderFloatEnabled = false → ∀ (e : HalfFloatExt) (cfg : TextureConfig),
      ext = some e → (getTextureConfig env glc ext l).2 = Except.ok cfg →
        cfg.textureTypeRender = e.HALF_FLOAT_OES) ∧
    (env.renderFloatEnabled = false → ext = none →
      (getTextureConfig env glc ext l).2 = Except.error JsError.typeError) := by
  refine ⟨fun hr cfg h => ?_, fun hr e cfg hx h => ?_, fun hr hx => ?_⟩ <;>
    by_cases hv : env.webglVersion = 2 <;>
      simp_all [getTextureConfig, halfFloatOES] <;>
        (subst h; rfl)

theorem getTextureConfig_renderType_witness :
    (getTextureConfig envLegacyNoFloat glWebGL1 none List.nil).2 =
        Except.error JsError.typeError ∧
    cfgModernSample.textureTypeRender = glWebGL2.FLOAT :=
  ⟨(getTextureConfig_renderType envLegacyNoFloat glWebGL1 none List.nil).2.2
      rfl rfl,
   (getTextureConfig_renderType envModernFloat glWebGL2 none List.nil).1
      rfl cfgModernSample (by decide)⟩

/-- C6 counterexample: calling `getTextureConfig` does modify state outside
the returned descriptor — the module-level `LOOKUP` map (line 108) gains
entries for the supplied GL constants (lines 116-132). -/
theorem getTextureConfig_mutates_lookup :
    (getTextureConfig envModernFloat glWebGL2 none List.nil).1 ≠ List.nil := by
  decide

/-- C6 (amended): the only state `getTextureConfig` modifies is the
module-level diagnostic `LOOKUP` map, and only at the keys of the supplied
GL constants; every other key is untouched, and the returned descriptor
does not depend on the prior `LOOKUP` contents. -/
theorem getTextureConfig_only_lookup_effect (env : Env) (glc : GLConstants)
    (ext : Option HalfFloatExt) (l : LookupMap) (k : Nat)
    (hk : k ∉ lookupWriteKeys glc ext) :
    lookupGet ((getTextureConfig env glc ext l).1) k = lookupGet l k ∧
    (getTextureConfig env glc ext l).2 = (getTextureConfig env glc ext List.nil).2 :=
  ⟨lookupRecord_get_ne glc ext l k hk, rfl⟩

theorem getTextureConfig_only_lookup_effect_witness :
    lookupGet ((getTextureConfig envModernFloat glWebGL2 none
        [(99, "stale")]).1) 99 = lookupGet [(99, "stale")] 99 ∧
    (getTextureConfig envModernFloat glWebGL2 none [(99, "stale")]).2 =
      (getTextureConfig envModernFloat glWebGL2 none List.nil).2 :=
  getTextureConfig_only_lookup_effect envModernFloat glWebGL2 none
    [(99, "stale")] 99 (by decide)

/-- C7: capability resolution is deterministic — two calls with identical
capability inputs (environment flags, GL constants, half-float extension),
whatever the prior `LOOKUP` states, produce identical descriptors. -/
theorem getTextureConfig_deterministic (env₁ env₂ : Env)
    (glc₁ glc₂ : GLConstants) (ext₁ ext₂ : Option HalfFloatExt)
    (l₁ l₂ : LookupMap) (henv : env₁ = env₂) (hglc : glc₁ = glc₂)
    (hext : ext₁ = ext₂) :
    (getTextureConfig env₁ glc₁ ext₁ l₁).2 =
      (getTextureConfig env₂ glc₂ ext₂ l₂).2 := by
  subst henv; subst hglc; subst hext; rfl

theorem getTextureConfig_deterministic_witness :
    (getTextureConfig envModernFloat glWebGL2 none [(99, "stale")]).2 =
      (getTextureConfig envModernFloat glWebGL2 none List.nil).2 :=
  getTextureConfig_deterministic envModernFloat envModernFloat glWebGL2
    glWebGL2 none none [(99, "stale")] List.nil rfl rfl rfl

/-- Modelled from the spec: `tex_util.getPackedMatrixTextureShapeWidthHeight`
is not under `src/`; the spec fixes it as
`packedShape(rows, cols) -> (ceil(cols/2), ceil(rows/2))`. -/
def getPackedMatrixTextureShapeWidthHeight (rows columns : Nat) : Nat × Nat :=
  ((columns + 1) / 2, (rows + 1) / 2)

/-- Modelled from the spec: `tex_util.getPackedRGBAArraySizeFromMatrixShape`
is not under `src/`; the packed physical buffer holds four channels per
texel of the packed texture shape. -/
def getPackedRGBAArraySizeFromMatrixShape (rows columns : Nat) : Nat :=
  (getPackedMatrixTextureShapeWidthHeight rows columns).1 *
    (getPackedMatrixTextureShapeWidthHeight rows columns).2 * 4

/-- Modelled from the spec: `tex_util.encodeMatrixToPackedRGBA` is not
under `src/`; "for each output texel at (px, py) covering logical 2x2
block at (2py, 2px), place up to 4 logical values into R,G,B,A; positions
beyond the logical matrix bounds (odd trailing row/column) are
zero-filled".  Channel `ch` of texel `(px, py)` holds logical position
`(2py + ch / 2, 2px + ch % 2)`. -/
def encodeMatrixToPackedRGBA (matrix : List Nat) (rows columns : Nat) :
    List Nat :=
  let texW := (getPackedMatrixTextureShapeWidthHeight rows columns).1
  (List.range (getPackedRGBAArraySizeFromMatrixShape rows columns)).map fun i =>
    let texel := i / 4
    let ch := i % 4
    let py := texel / texW
    let px := texel % texW
    let r := 2 * py + ch / 2
    let c := 2 * px + ch % 2
    if r < rows ∧ c < columns then matrix.getD (r * columns + c) 0 else 0

/-- Modelled from the spec: `tex_util.decodeMatrixFromPackedRGBA` is not
under `src/`; the inverse mapping, reading for each logical position the
channel of the texel that covers it, "discarding positions beyond
(rows, cols)" — the read index depends only on the logical position, so no
position beyond the logical bounds is ever read. -/
def decodeMatrixFromPackedRGBA (packedRGBA : List Nat) (rows columns : Nat) :
    List Nat :=
  let texW := (getPackedMatrixTextureShapeWidthHeight rows columns).1
  (List.range (rows * columns)).map fun i =>
    let r := i / columns
    let c := i % columns
    packedRGBA.getD (((r / 2) * texW + c / 2) * 4 + (r % 2) * 2 + c % 2) 0

lemma getD_range_map {α : Type} (f : Nat → α) (n i : Nat) (d : α)
    (h : i < n) : ((List.range n).map f).getD i d = f i := by
  rw [List.getD_eq_getElem?_getD, List.getElem?_map, List.getElem?_range h]
  rfl

lemma nat_succ_div_two_cast_eq_ceil (n : Nat) :
    (((n + 1) / 2 : Nat) : ℤ) = ⌈(n : ℚ) / 2⌉ := by
  rcases Nat.even_or_odd n with ⟨k, hk⟩ | ⟨k, hk⟩ <;> subst hk
  · have h1 : ((k + k + 1) / 2 : Nat) = k := by omega
    rw [h1, show ((k + k : Nat) : ℚ) / 2 = (k : ℚ) by push_cast; ring,
      Int.ceil_natCast]
  · have h1 : ((2 * k + 1 + 1) / 2 : Nat) = k + 1 := by omega
    rw [h1]
    symm
    rw [Int.ceil_eq_iff]
    constructor <;> push_cast <;> [linarith [Nat.cast_nonneg (α := ℚ) k];
      linarith [Nat.cast_nonneg (α := ℚ) k]]

/-- C3: for all rows, cols >= 1 the packed texture shape is
`(ceil(cols/2), ceil(rows/2))`; in particular a (1,1) matrix packs into a
(1,1)-texel texture and a (3,3) matrix into a (2,2)-texel texture. -/
theorem getPackedMatrixTextureShape_spec (rows columns : Nat)
    (h1 : 1 ≤ rows) (h2 : 1 ≤ columns) :
    (((getPackedMatrixTextureShapeWidthHeight rows columns).1 : ℤ) =
        ⌈(columns : ℚ) / 2⌉ ∧
      ((getPackedMatrixTextureShapeWidthHeight rows columns).2 : ℤ) =
        ⌈(rows : ℚ) / 2⌉) ∧
    getPackedMatrixTextureShapeWidthHeight 1 1 = (1, 1) ∧
    getPackedMatrixTextureShapeWidthHeight 3 3 = (2, 2) :=
  ⟨⟨nat_succ_div_two_cast_eq_ceil columns, nat_succ_div_two_cast_eq_ceil rows⟩,
    by decide, by decide⟩

theorem getPackedMatrixTextureShape_spec_witness :
    (((getPackedMatrixTextureShapeWidthHeight 3 3).1 : ℤ) =
        ⌈((3 : Nat) : ℚ) / 2⌉ ∧
      ((getPackedMatrixTextureShapeWidthHeight 3 3).2 : ℤ) =
        ⌈((3 : Nat) : ℚ) / 2⌉) ∧
    getPackedMatrixTextureShapeWidthHeight 1 1 = (1, 1) ∧
    getPackedMatrixTextureShapeWidthHeight 3 3 = (2, 2) :=
  getPackedMatrixTextureShape_spec 3 3 (by decide) (by decide)

lemma encode_at_packed_index (matrix : List Nat) (rows columns r c : Nat)
    (hr : r < rows) (hc : c < columns) :
    (encodeMatrixToPackedRGBA matrix rows columns).getD
      (((r / 2) * ((columns + 1) / 2) + c / 2) * 4 + (r % 2) * 2 + c % 2) 0 =
    matrix.getD (r * columns + c) 0 := by
  obtain ⟨texW, htexW⟩ : ∃ w, (columns + 1) / 2 = w := ⟨_, rfl⟩
  obtain ⟨texH, htexH⟩ : ∃ h, (rows + 1) / 2 = h := ⟨_, rfl⟩
  rw [htexW]
  have hpx : c / 2 < texW := by omega
  have hpy : r / 2 < texH := by omega
  have htexWpos : 0 < texW := by omega
  obtain ⟨A, hA⟩ : ∃ a, (r / 2) * texW + c / 2 = a := ⟨_, rfl⟩
  rw [hA]
  have hAlt : A < texW * texH := by
    have h5 : (r / 2 + 1) * texW ≤ texH * texW :=
      Nat.mul_le_mul_right _ (by omega)
    have h6 : (r / 2 + 1) * texW = (r / 2) * texW + texW := by ring
    have h7 : texH * texW = texW * texH := Nat.mul_comm _ _
    omega
  have hsize : getPackedRGBAArraySizeFromMatrixShape rows columns =
      texW * texH * 4 := by
    show (columns + 1) / 2 * ((rows + 1) / 2) * 4 = texW * texH * 4
    rw [htexW, htexH]
  have hidx : A * 4 + (r % 2) * 2 + c % 2 <
      getPackedRGBAArraySizeFromMatrixShape rows columns := by
    rw [hsize]
    have h8 : (A + 1) * 4 ≤ texW * texH * 4 :=
      Nat.mul_le_mul_right _ (by omega)
    omega
  simp only [encodeMatrixToPackedRGBA]
  rw [getD_range_map _ _ _ _ hidx]
  simp only [getPackedMatrixTextureShapeWidthHeight, htexW]
  have hj4 : (A * 4 + (r % 2) * 2 + c % 2) / 4 = A := by omega
  have hj4m : (A * 4 + (r % 2) * 2 + c % 2) % 4 = (r % 2) * 2 + c % 2 := by
    omega
  rw [hj4, hj4m]
  have hAdiv : A / texW = r / 2 := by
    rw [← hA, Nat.mul_comm (r / 2) texW, Nat.mul_add_div htexWpos,
      Nat.div_eq_of_lt hpx]
    exact Nat.add_zero _
  have hAmod : A % texW = c / 2 := by
    rw [← hA, Nat.mul_comm (r / 2) texW, Nat.mul_add_mod]
    exact Nat.mod_eq_of_lt hpx
  rw [hAdiv, hAmod]
  have hrr : 2 * (r / 2) + ((r % 2) * 2 + c % 2) / 2 = r := by omega
  have hcc : 2 * (c / 2) + ((r % 2) * 2 + c % 2) % 2 = c := by omega
  rw [hrr, hcc, if_pos ⟨hr, hc⟩]

/-- C1: decoding the packed-RGBA encoding of an (r, c) matrix with the same
shape reproduces the matrix exactly, including odd r or c; the decoder
reads only texel channels covering in-bounds logical positions even though
the physical buffer is larger. -/
theorem packedRGBA_roundtrip (matrix : List Nat) (rows columns : Nat)
    (h1 : 1 ≤ rows) (h2 : 1 ≤ columns)
    (hm : matrix.length = rows * columns) :
    decodeMatrixFromPackedRGBA (encodeMatrixToPackedRGBA matrix rows columns)
      rows columns = matrix := by
  apply List.ext_getElem
  · simp [decodeMatrixFromPackedRGBA, hm]
  · intro i hi hi'
    have hil : i < rows * columns := by
      simpa [decodeMatrixFromPackedRGBA] using hi
    have hcols : 0 < columns := h2
    simp only [decodeMatrixFromPackedRGBA,
      getPackedMatrixTextureShapeWidthHeight, List.getElem_map,
      List.getElem_range]
    have hstep := encode_at_packed_index matrix rows columns (i / columns)
      (i % columns) ((Nat.div_lt_iff_lt_mul hcols).mpr hil)
      (Nat.mod_lt _ hcols)
    rw [hstep]
    have hieq : i / columns * columns + i % columns = i := by
      rw [Nat.mul_comm (i / columns) columns]
      exact Nat.div_add_mod i columns
    rw [hieq, List.getD_eq_getElem?_getD, List.getElem?_eq_getElem hi']
    rfl

theorem packedRGBA_roundtrip_witness :
    (1 : Nat) ≤ 3 ∧ ([1, 2, 3, 4, 5, 6, 7, 8, 9] : List Nat).length = 3 * 3 ∧
    decodeMatrixFromPackedRGBA
        (encodeMatrixToPackedRGBA [1, 2, 3, 4, 5, 6, 7, 8, 9] 3 3) 3 3 =
      [1, 2, 3, 4, 5, 6, 7, 8, 9] :=
  ⟨by decide, by decide,
    packedRGBA_roundtrip [1, 2, 3, 4, 5, 6, 7, 8, 9] 3 3 (by decide)
      (by decide) (by decide)⟩

/-- Modelled from the spec: `tex_util.getUnpackedArraySizeFromMatrixSize` is
not under `src/`; `encodeUnpacked` distributes each logical value into
`channels` slots per texel, so the physical buffer holds
`matrixSize * channels` entries. -/
def getUnpackedArraySizeFromMatrixSize (matrixSize channelsPerTexture : Nat) :
    Nat :=
  matrixSize * channelsPerTexture

/-- Modelled from the spec: `tex_util.decodeMatrixFromUnpackedArray` is not
under `src/`; "select the designated channel per texel, producing a flat
row-major buffer" — logical entry `i` comes from channel 0 of texel `i`. -/
def decodeMatrixFromUnpackedArray (unpackedArray : List Nat)
    (matrixSize channelsPerTexture : Nat) : List Nat :=
  (List.range matrixSize).map fun i =>
    unpackedArray.getD (i * channelsPerTexture) 0

/-- `getDownloadTargetArrayBuffer` (lines 411-427): in float-download mode
a `Float32Array` sized for the unpacked layout, otherwise a `Uint8Array`
of `rows * columns * 4` bytes; fresh typed arrays are zero-filled. -/
def getDownloadTargetArrayBuffer (env : Env) (rows columns numChannels : Nat) :
    List Nat :=
  if env.downloadFloatEnabled then
    List.replicate
      (getUnpackedArraySizeFromMatrixSize (rows * columns) numChannels) 0
  else
    List.replicate (rows * columns * 4) 0

/-- The view `new Float32Array(downloadTarget.buffer)` (line 441): each
consecutive group of 4 bytes of the byte buffer, assembled little-endian
(typed-array views use the platform byte order), becomes the bit pattern
of one 32-bit float; no value rescaling happens. -/
def float32WordsOfBytes (bytes : List Nat) : List Nat :=
  (List.range (bytes.length / 4)).map fun i =>
    bytes.getD (4 * i) 0 + 256 * bytes.getD (4 * i + 1) 0 +
      65536 * bytes.getD (4 * i + 2) 0 + 16777216 * bytes.getD (4 * i + 3) 0

/-- `decodeDownloadTargetArrayBuffer` (lines 429-452): in float-download
mode, unpack the designated channel per texel into a fresh
`rows * columns` matrix; otherwise reinterpret the raw bytes as float32
bit patterns. -/
def decodeDownloadTargetArrayBuffer (env : Env) (downloadTarget : List Nat)
    (rows columns channelsPerPixel : Nat) : List Nat :=
  if env.downloadFloatEnabled then
    decodeMatrixFromUnpackedArray downloadTarget (rows * columns)
      channelsPerPixel
  else
    float32WordsOfBytes downloadTarget

/-- Models `gl.readPixels` / `getBufferSubDataAsync` filling the whole
download target with driver data; `pix i` is the value the driver writes
into slot `i`. -/
def readPixelsInto (pix : Nat → Nat) (target : List Nat) : List Nat :=
  (List.range target.length).map pix

/-- `downloadMatrixFromOutputTexture` (lines 492-528): allocate the
download target for `downloadUnpackNumChannels` channels, read pixels into
it, decode. -/
def downloadMatrixFromOutputTexture (env : Env) (pix : Nat → Nat)
    (rows columns : Nat) (textureConfig : TextureConfig) : List Nat :=
  let downloadTarget := getDownloadTargetArrayBuffer env rows columns
    textureConfig.downloadUnpackNumChannels
  let filled := readPixelsInto pix downloadTarget
  decodeDownloadTargetArrayBuffer env filled rows columns
    textureConfig.downloadUnpackNumChannels

/-- `downloadMatrixFromOutputTextureAsync` (lines 454-490): a pixel-pack
buffer is filled asynchronously; `channelsPerPixel` is fixed at 4. -/
def downloadMatrixFromOutputTextureAsync (env : Env) (pix : Nat → Nat)
    (rows columns : Nat) (textureConfig : TextureConfig) : List Nat :=
  let channelsPerPixel := 4
  let downloadTarget := getDownloadTargetArrayBuffer env rows columns
    channelsPerPixel
  let filled := readPixelsInto pix downloadTarget
  decodeDownloadTargetArrayBuffer env filled rows columns channelsPerPixel

/-- The finite value denoted by a 32-bit IEEE-754 bit pattern, as an exact
rational; `none` for exponent 255 (infinities and NaNs). -/
def float32ValOfBits (b : Nat) : Option ℚ :=
  let sign : Nat := b / 2 ^ 31 % 2
  let exp : Nat := b / 2 ^ 23 % 2 ^ 8
  let frac : Nat := b % 2 ^ 23
  if exp = 255 then none
  else
    let mag : ℚ :=
      if exp = 0 then (frac : ℚ) / 2 ^ 23 / 2 ^ 126
      else ((2 ^ 23 + frac : Nat) : ℚ) / 2 ^ 23 * ((2 : ℚ) ^ exp) / 2 ^ 127
    some (if sign = 1 then -mag else mag)

lemma getD_append_right_of (l₁ l₂ : List Nat) (n t d : Nat)
    (h : l₁.length ≤ n) (ht : t = n - l₁.length) :
    (l₁ ++ l₂).getD n d = l₂.getD t d := by
  subst ht
  rw [List.getD_eq_getElem?_getD, List.getElem?_append_right h,
    List.getD_eq_getElem?_getD]

/-- C2: with float download disabled, the download decode path
reinterprets each aligned group of 4 raw bytes as the bit pattern of a
32-bit float with no value rescaling: the bytes 00 00 C0 3F (the IEEE-754
little-endian representation of 1.5), wherever they sit on a 4-byte
boundary, decode to exactly 3/2. -/
theorem decodeDownloadTarget_uint8_bit_reinterpretation (env : Env)
    (pre rest : List Nat) (j rows columns channelsPerPixel : Nat)
    (henv : env.downloadFloatEnabled = false) (hpre : pre.length = 4 * j) :
    float32ValOfBits ((decodeDownloadTargetArrayBuffer env
        (pre ++ 0 :: 0 :: 192 :: 63 :: rest) rows columns
        channelsPerPixel).getD j 0) = some (3 / 2 : ℚ) := by
  simp only [decodeDownloadTargetArrayBuffer, henv, Bool.false_eq_true,
    if_false]
  have hlen : (pre ++ 0 :: 0 :: 192 :: 63 :: rest).length =
      4 * j + (4 + rest.length) := by
    simp [hpre]
    omega
  have hj : j < (pre ++ 0 :: 0 :: 192 :: 63 :: rest).length / 4 := by omega
  simp only [float32WordsOfBytes]
  rw [getD_range_map _ _ _ _ hj]
  have e0 : (pre ++ 0 :: 0 :: 192 :: 63 :: rest).getD (4 * j) 0 = 0 := by
    rw [getD_append_right_of pre _ (4 * j) 0 0 (by omega) (by omega)]
    rfl
  have e1 : (pre ++ 0 :: 0 :: 192 :: 63 :: rest).getD (4 * j + 1) 0 = 0 := by
    rw [getD_append_right_of pre _ (4 * j + 1) 1 0 (by omega) (by omega)]
    rfl
  have e2 : (pre ++ 0 :: 0 :: 192 :: 63 :: rest).getD (4 * j + 2) 0 = 192 := by
    rw [getD_append_right_of pre _ (4 * j + 2) 2 0 (by omega) (by omega)]
    rfl
  have e3 : (pre ++ 0 :: 0 :: 192 :: 63 :: rest).getD (4 * j + 3) 0 = 63 := by
    rw [getD_append_right_of pre _ (4 * j + 3) 3 0 (by omega) (by omega)]
    rfl
  rw [e0, e1, e2, e3]
  norm_num [float32ValOfBits]

theorem decodeDownloadTarget_uint8_witness :
    float32ValOfBits ((decodeDownloadTargetArrayBuffer envLegacyNoFloat
        (List.nil ++ 0 :: 0 :: 192 :: 63 :: List.nil) 1 1 4).getD 0 0) =
      some (3 / 2 : ℚ) :=
  decodeDownloadTarget_uint8_bit_reinterpretation envLegacyNoFloat
    List.nil List.nil 0 1 1 4 rfl rfl

/-- C9: both the synchronous and the asynchronous unpacked download return
a flat buffer of length exactly rows * columns, in float-download mode and
in unsigned-8-bit mode alike. -/
theorem download_result_length (env : Env) (pix : Nat → Nat)
    (rows columns : Nat) (textureConfig : TextureConfig)
    (h1 : 1 ≤ rows) (h2 : 1 ≤ columns) :
    (downloadMatrixFromOutputTexture env pix rows columns
        textureConfig).length = rows * columns ∧
    (downloadMatrixFromOutputTextureAsync env pix rows columns
        textureConfig).length = rows * columns := by
  constructor <;>
    · simp only [downloadMatrixFromOutputTexture,
        downloadMatrixFromOutputTextureAsync, decodeDownloadTargetArrayBuffer,
        getDownloadTargetArrayBuffer, readPixelsInto,
        decodeMatrixFromUnpackedArray, float32WordsOfBytes,
        getUnpackedArraySizeFromMatrixSize]
      rcases hf : env.downloadFloatEnabled with _ | _ <;> simp [hf]

theorem download_result_length_witness :
    (downloadMatrixFromOutputTexture envLegacyNoFloat (fun _ => 0) 2 3
        cfgModernSample).length = 2 * 3 ∧
    (downloadMatrixFromOutputTextureAsync envLegacyNoFloat (fun _ => 0) 2 3
        cfgModernSample).length = 2 * 3 :=
  download_result_length envLegacyNoFloat (fun _ => 0) 2 3 cfgModernSample
    (by decide) (by decide)

/-- A GPU command issued while creating and configuring a texture.
`bindTexture` with `bound = false` is the unbind (`null`) call; the
`texImage2D` format/type arguments are `Option Nat` because a descriptor
field can be `undefined`. -/
inductive GpuCall where
  | createTexture
  | bindTexture (target : Nat) (bound : Bool)
  | texParameteri (target pname param : Nat)
  | texImage2D (target level : Nat) (internalFormat : Option Nat)
      (width height border : Nat) (format type : Option Nat)
deriving DecidableEq, Repr

/-- Modelled from the spec: `webgl_util.validateTextureSize` is not under
`src/`; allocation "fails (configuration error) if requested dimensions
exceed the platform's maximum texture size — validated before allocation",
the spec's `SizeError` kind. -/
def validateTextureSize (maxTextureSize width height : Nat) :
    Except JsError Unit :=
  if width > maxTextureSize ∨ height > maxTextureSize then
    Except.error JsError.sizeError
  else
    Except.ok ()

/-- `createAndConfigureTexture` (lines 239-271): validate the size first,
then create the texture, bind it, set clamp-to-edge wrap and nearest
filters, allocate storage with `texImage2D` (no data), and unbind.  The
`numChannels` parameter is accepted but never read (its only uses are in
commented-out code).  Returns the trace of GPU calls issued and the
outcome; when validation fails the trace is empty. -/
def createAndConfigureTexture (glc : GLConstants)
    (maxTextureSize width height numChannels : Nat)
    (internalFormat textureFormat textureType : Option Nat) :
    List GpuCall × Except JsError Unit :=
  match validateTextureSize maxTextureSize width height with
  | Except.error e => ([], Except.error e)
  | Except.ok _ =>
    ([GpuCall.createTexture,
      GpuCall.bindTexture glc.TEXTURE_2D true,
      GpuCall.texParameteri glc.TEXTURE_2D glc.TEXTURE_WRAP_S glc.CLAMP_TO_EDGE,
      GpuCall.texParameteri glc.TEXTURE_2D glc.TEXTURE_WRAP_T glc.CLAMP_TO_EDGE,
      GpuCall.texParameteri glc.TEXTURE_2D glc.TEXTURE_MIN_FILTER glc.NEAREST,
      GpuCall.texParameteri glc.TEXTURE_2D glc.TEXTURE_MAG_FILTER glc.NEAREST,
      GpuCall.texImage2D glc.TEXTURE_2D 0 internalFormat width height 0
        textureFormat textureType,
      GpuCall.bindTexture glc.TEXTURE_2D false],
     Except.ok ())

/-- Modelled from the spec: `tex_util.getUnpackedMatrixTextureShapeWidthHeight`
is not under `src/`; the unpacked shape holds `rows * columns`
single-channel texels, and per the spec's size-error scenario (a request
with rows = 100000 exceeds a platform maximum of 16384) the height scales
with the number of rows, so the shape is `(columns, rows)`. -/
def getUnpackedMatrixTextureShapeWidthHeight (rows columns : Nat) :
    Nat × Nat :=
  (columns, rows)

/-- `createUploadMatrixTexture` (lines 273-282): unpacked shape, one
channel, upload texture type from the descriptor. -/
def createUploadMatrixTexture (glc : GLConstants) (maxTextureSize : Nat)
    (rows columns : Nat) (textureConfig : TextureConfig) :
    List GpuCall × Except JsError Unit :=
  let wh := getUnpackedMatrixTextureShapeWidthHeight rows columns
  createAndConfigureTexture glc maxTextureSize wh.1 wh.2 1
    textureConfig.internalFormat textureConfig.textureFormat
    (some textureConfig.textureTypeUpload)

/-- `createRenderMatrixTexture` (lines 284-293): unpacked shape, one
channel, render texture type from the descriptor. -/
def createRenderMatrixTexture (glc : GLConstants) (maxTextureSize : Nat)
    (rows columns : Nat) (textureConfig : TextureConfig) :
    List GpuCall × Except JsError Unit :=
  let wh := getUnpackedMatrixTextureShapeWidthHeight rows columns
  createAndConfigureTexture glc maxTextureSize wh.1 wh.2 1
    textureConfig.internalFormat textureConfig.textureFormat
    (some textureConfig.textureTypeRender)

/-- `createPixelDataTexture` (lines 295-303): unpacked shape, four
channels, and the fixed `gl.RGBA` / `gl.RGBA` / `gl.UNSIGNED_BYTE`
triple — the supplied descriptor is never read. -/
def createPixelDataTexture (glc : GLConstants) (maxTextureSize : Nat)
    (rows columns : Nat) (textureConfig : TextureConfig) :
    List GpuCall × Except JsError Unit :=
  let wh := getUnpackedMatrixTextureShapeWidthHeight rows columns
  createAndConfigureTexture glc maxTextureSize wh.1 wh.2 4
    (some glc.RGBA) (some glc.RGBA) (some glc.UNSIGNED_BYTE)

/-- `createPackedMatrixTexture` (lines 305-314): packed shape, four
channels, default texture type from the descriptor. -/
def createPackedMatrixTexture (glc : GLConstants) (maxTextureSize : Nat)
    (rows columns : Nat) (textureConfig : TextureConfig) :
    List GpuCall × Except JsError Unit :=
  let wh := getPackedMatrixTextureShapeWidthHeight rows columns
  createAndConfigureTexture glc maxTextureSize wh.1 wh.2 4
    textureConfig.internalFormat textureConfig.textureFormat
    (some textureConfig.defaultTextureType)

/-- C8: requested dimensions are validated against the platform maximum
before any texture object is created or configured — an oversized request
fails with the SizeError and the GPU-call trace stays empty; in
particular an upload-texture request whose rows exceed the maximum fails
this way. -/
theorem texture_size_validated_before_allocation (glc : GLConstants)
    (maxTextureSize width height numChannels : Nat)
    (internalFormat textureFormat textureType : Option Nat)
    (rows columns : Nat) (textureConfig : TextureConfig) :
    (width > maxTextureSize ∨ height > maxTextureSize →
      createAndConfigureTexture glc maxTextureSize width height numChannels
        internalFormat textureFormat textureType =
        ([], Except.error JsError.sizeError)) ∧
    (rows > maxTextureSize →
      createUploadMatrixTexture glc maxTextureSize rows columns
        textureConfig = ([], Except.error JsError.sizeError)) := by
  constructor
  · intro h
    simp [createAndConfigureTexture, validateTextureSize, h]
  · intro h
    simp [createUploadMatrixTexture, createAndConfigureTexture,
      validateTextureSize, getUnpackedMatrixTextureShapeWidthHeight, h]

theorem texture_size_validated_witness :
    createAndConfigureTexture glWebGL1 16384 16385 1 1 none none none =
      ([], Except.error JsError.sizeError) ∧
    createUploadMatrixTexture glWebGL1 16384 100000 1 cfgModernSample =
      ([], Except.error JsError.sizeError) :=
  ⟨(texture_size_validated_before_allocation glWebGL1 16384 16385 1 1 none
      none none 1 1 cfgModernSample).1 (Or.inl (by decide)),
   (texture_size_validated_before_allocation glWebGL1 16384 1 1 1 none none
      none 100000 1 cfgModernSample).2 (by decide)⟩

/-- C10: `createAndConfigureTexture` never reads its `numChannels`
parameter — the result is identical for any two channel counts; and
`createPixelDataTexture` ignores the supplied descriptor, always
configuring with the fixed `RGBA` format and `UNSIGNED_BYTE` type. -/
theorem numChannels_plays_no_role (glc : GLConstants)
    (maxTextureSize width height n₁ n₂ : Nat)
    (internalFormat textureFormat textureType : Option Nat)
    (rows columns : Nat) (cfg₁ cfg₂ : TextureConfig) :
    createAndConfigureTexture glc maxTextureSize width height n₁
        internalFormat textureFormat textureType =
      createAndConfigureTexture glc maxTextureSize width height n₂
        internalFormat textureFormat textureType ∧
    createPixelDataTexture glc maxTextureSize rows columns cfg₁ =
      createPixelDataTexture glc maxTextureSize rows columns cfg₂ ∧
    createPixelDataTexture glc maxTextureSize rows columns cfg₁ =
      createAndConfigureTexture glc maxTextureSize columns rows 4
        (some glc.RGBA) (some glc.RGBA) (some glc.UNSIGNED_BYTE) :=
  ⟨rfl, rfl, rfl⟩
